import Mathlib

/-!
Verification development for the aikernel repository: message model,
conversation store, router fallback construction, and response
normalization, shallowly embedded in Lean 4.

Conventions used throughout:
* Machine timestamps (`created_at`, a Python `datetime`) are modelled as `Nat`;
  only their total order matters to the code.
* Python exceptions are modelled by `Except`/`Option` results; each distinct
  raise site of `AIError` is a distinct constructor of `AIErr`.
* External collaborators (the litellm transport, the stdlib `json` module,
  pydantic's schema capability) are modelled as function parameters or, for
  `json.loads`, as an executable JSON document parser `pyJsonLoads` over a
  JSON document AST `JsonValue` (integers only, no unicode escapes; the
  sources never rely on the unmodelled corners).
-/

/-- JSON document AST, the value space of the external `json` module and of
pydantic JSON documents. Numbers are modelled as integers. -/
inductive JsonValue where
  | null : JsonValue
  | bool (b : Bool) : JsonValue
  | num (n : Int) : JsonValue
  | str (s : String) : JsonValue
  | arr (items : List JsonValue) : JsonValue
  | obj (fields : List (String × JsonValue)) : JsonValue
deriving Repr

/-- Error kinds of the library. The source raises `AIError` with a distinct
message at each site; each site is one constructor here. -/
inductive AIErr where
  | validationFailure
  | invalidDump
  | noSystemMessage
  | illegalRender
  | noResponse
  | noToolCallFound
  | toolCallMismatch
  | invalidToolCallArguments
deriving DecidableEq, Repr

/-- Content types of a message part (`LLMMessageContentType` in the source). -/
inductive LLMMessageContentType where
  | text
  | png
  | jpeg
  | webp
  | wav
  | mp3
  | pdf
deriving DecidableEq, Repr

/-- String value of each `LLMMessageContentType` member, as in the source
`StrEnum`. -/
def LLMMessageContentType.value : LLMMessageContentType → String
  | .text => "text"
  | .png => "image/png"
  | .jpeg => "image/jpeg"
  | .webp => "image/webp"
  | .wav => "audio/wav"
  | .mp3 => "audio/mp3"
  | .pdf => "application/pdf"

/-- Inverse of `LLMMessageContentType.value`, used when re-validating a
serialized part. -/
def LLMMessageContentType.ofValue : String → Option LLMMessageContentType
  | "text" => some .text
  | "image/png" => some .png
  | "image/jpeg" => some .jpeg
  | "image/webp" => some .webp
  | "audio/wav" => some .wav
  | "audio/mp3" => some .mp3
  | "application/pdf" => some .pdf
  | _ => none

/-- One message part (`LLMMessagePart` in the source). -/
structure LLMMessagePart where
  content : String
  content_type : LLMMessageContentType := .text
deriving DecidableEq, Repr

/-- System message: parts plus a creation timestamp. -/
structure LLMSystemMessage where
  parts : List LLMMessagePart
  created_at : Nat
deriving DecidableEq, Repr

/-- User message: parts plus a creation timestamp. -/
structure LLMUserMessage where
  parts : List LLMMessagePart
  created_at : Nat
deriving DecidableEq, Repr

/-- Assistant message: parts plus a creation timestamp. The source enforces
at construction that every part is TEXT (`no_media_parts`); construction is
modelled by `LLMAssistantMessage.create`. -/
structure LLMAssistantMessage where
  parts : List LLMMessagePart
  created_at : Nat
deriving DecidableEq, Repr

/-- The `function_call` payload of a tool message. Its `arguments` field is
declared `Json[str]` in the source: the stored value is the string the JSON
document decoded to. -/
structure LLMToolMessageFunctionCall where
  name : String
  arguments : String
deriving DecidableEq, Repr

/-- Tool message. `response` is declared `Json[str]` in the source; the
stored value is the decoded string. The source forces `parts` to be empty at
construction (`no_parts`); construction is modelled by
`LLMToolMessage.create`. -/
structure LLMToolMessage where
  tool_call_id : String
  name : String
  response : String
  function_call : LLMToolMessageFunctionCall
  parts : List LLMMessagePart
  created_at : Nat
deriving DecidableEq, Repr

/-- Tagged union over the four message roles, used for the mixed lists a
`Conversation` renders and a completion helper consumes. -/
inductive Message where
  | system (m : LLMSystemMessage)
  | user (m : LLMUserMessage)
  | assistant (m : LLMAssistantMessage)
  | tool (m : LLMToolMessage)
deriving DecidableEq, Repr

/-- Creation timestamp of a message, the sort key of `Conversation.render`. -/
def Message.created_at : Message → Nat
  | .system m => m.created_at
  | .user m => m.created_at
  | .assistant m => m.created_at
  | .tool m => m.created_at

/-- Pydantic construction of `LLMAssistantMessage`: runs the
`no_media_parts` model validator, which rejects any part whose content type
is not TEXT. -/
def LLMAssistantMessage.create (parts : List LLMMessagePart) (created_at : Nat) :
    Except AIErr LLMAssistantMessage :=
  if parts.any (fun part => part.content_type != .text) then
    .error .validationFailure
  else
    .ok { parts := parts, created_at := created_at }

/-- Pydantic construction of `LLMToolMessage`: runs the `no_parts` model
validator, which rejects a non-empty parts list. -/
def LLMToolMessage.create (tool_call_id : String) (name : String) (response : String)
    (function_call : LLMToolMessageFunctionCall) (parts : List LLMMessagePart)
    (created_at : Nat) : Except AIErr LLMToolMessage :=
  if parts.isEmpty then
    .ok { tool_call_id := tool_call_id, name := name, response := response,
          function_call := function_call, parts := parts, created_at := created_at }
  else
    .error .validationFailure

/-- Python `str.isalnum`, restricted to ASCII content (where Lean's
`Char.isAlphanum` agrees with Python): true iff the string is non-empty and
every character is alphanumeric. -/
def pyIsAlnum (s : String) : Bool :=
  !s.data.isEmpty && s.data.all Char.isAlphanum

/-- Python `value.replace("_", "")`: the string with every underscore
removed. -/
def removeUnderscores (s : String) : String :=
  String.mk (s.data.filter (fun c => c != '_'))

/-- Tool descriptor (`LLMTool` in the source). The generic `parameters:
type[ParametersT]` is modelled by its one used capability, the JSON Schema
document `model_json_schema()` produces. -/
structure LLMTool where
  name : String
  description : String
  parameters : JsonValue
deriving Repr

/-- Pydantic construction of `LLMTool`: runs the `validate_function_name`
field validator, `value.replace("_", "").isalnum()`. -/
def LLMTool.create (name : String) (description : String) (parameters : JsonValue) :
    Except AIErr LLMTool :=
  if pyIsAlnum (removeUnderscores name) then
    .ok { name := name, description := description, parameters := parameters }
  else
    .error .validationFailure

/-- Whitespace skipping of the JSON document parser. -/
def skipWs (cs : List Char) : List Char :=
  cs.dropWhile (fun c => c == ' ' || c == '\t' || c == '\r' || c == '\n')

/-- Consumes the expected keyword tail from the input, or fails. -/
def dropKeyword : List Char → List Char → Option (List Char)
  | [], cs => some cs
  | k :: ks, c :: cs => if c == k then dropKeyword ks cs else none
  | _ :: _, [] => none

/-- Unescaping of a JSON string escape character (`\u` escapes are not
modelled). -/
def jsonEscChar (e : Char) : Option Char :=
  if e == 'n' then some '\n'
  else if e == 't' then some '\t'
  else if e == 'r' then some '\r'
  else if e == '"' || e == '\\' || e == '/' then some e
  else none

/-- Body of a JSON string literal, after the opening quote: the decoded
string and the remaining input. -/
def parseStringBody : List Char → Option (String × List Char)
  | [] => none
  | '\\' :: e :: rest =>
    match jsonEscChar e with
    | some c => (parseStringBody rest).map (fun p => (String.mk (c :: p.1.data), p.2))
    | none => none
  | c :: rest =>
    if c == '"' then some ("", rest)
    else (parseStringBody rest).map (fun p => (String.mk (c :: p.1.data), p.2))

/-- Numeric value of a list of decimal digit characters. -/
def natOfDigits (ds : List Char) : Nat :=
  ds.foldl (fun n c => n * 10 + (c.toNat - 48)) 0

/-- Splits a leading run of digits off the input, failing when there is
none, and returns its numeric value with the remaining input. -/
def parseNatPart (cs : List Char) : Option (Nat × List Char) :=
  let ds := cs.takeWhile Char.isDigit
  if ds.isEmpty then none else some (natOfDigits ds, cs.drop ds.length)

mutual

/-- Fuel-indexed parser of one JSON value (integer numbers only). -/
def parseJsonValue : Nat → List Char → Option (JsonValue × List Char)
  | 0, _ => none
  | fuel + 1, cs =>
    match skipWs cs with
    | [] => none
    | c :: rest =>
      if c == 'n' then (dropKeyword ['u', 'l', 'l'] rest).map (fun r => (.null, r))
      else if c == 't' then (dropKeyword ['r', 'u', 'e'] rest).map (fun r => (.bool true, r))
      else if c == 'f' then
        (dropKeyword ['a', 'l', 's', 'e'] rest).map (fun r => (.bool false, r))
      else if c == '"' then (parseStringBody rest).map (fun p => (.str p.1, p.2))
      else if c == '-' then
        (parseNatPart rest).map (fun p => (.num (-(p.1 : Int)), p.2))
      else if c.isDigit then
        (parseNatPart (c :: rest)).map (fun p => (.num (p.1 : Int), p.2))
      else if c == Char.ofNat 123 then parseJsonMembers fuel rest
      else if c == '[' then parseJsonItems fuel rest
      else none

/-- Fuel-indexed parser of the members of a JSON object, after the opening
brace: produces the object value directly. -/
def parseJsonMembers : Nat → List Char → Option (JsonValue × List Char)
  | 0, _ => none
  | fuel + 1, cs =>
    match skipWs cs with
    | [] => none
    | c :: rest =>
      if c == Char.ofNat 125 then some (.obj [], rest)
      else if c == '"' then
        match parseStringBody rest with
        | none => none
        | some (key, cs1) =>
          match skipWs cs1 with
          | c1 :: cs2 =>
            if c1 == ':' then
              match parseJsonValue fuel cs2 with
              | none => none
              | some (v, cs3) =>
                match skipWs cs3 with
                | c2 :: cs4 =>
                  if c2 == Char.ofNat 125 then some (.obj [(key, v)], cs4)
                  else if c2 == ',' then
                    match parseJsonMembers fuel cs4 with
                    | some (.obj kvs, cs5) => some (.obj ((key, v) :: kvs), cs5)
                    | _ => none
                  else none
                | [] => none
            else none
          | [] => none
      else none

/-- Fuel-indexed parser of the items of a JSON array, after the opening
bracket: produces the array value directly. -/
def parseJsonItems : Nat → List Char → Option (JsonValue × List Char)
  | 0, _ => none
  | fuel + 1, cs =>
    match skipWs cs with
    | ']' :: rest => some (.arr [], rest)
    | cs1 =>
      match parseJsonValue fuel cs1 with
      | none => none
      | some (v, cs2) =>
        match skipWs cs2 with
        | c :: cs3 =>
          if c == ']' then some (.arr [v], cs3)
          else if c == ',' then
            match parseJsonItems fuel cs3 with
            | some (.arr vs, cs4) => some (.arr (v :: vs), cs4)
            | _ => none
          else none
        | [] => none

end

/-- Model of Python `json.loads`: parses a complete JSON document, `none` on
failure. -/
def pyJsonLoads (s : String) : Option JsonValue :=
  match parseJsonValue (s.length + 8) s.data with
  | some (v, rest) => if (skipWs rest).isEmpty then some v else none
  | none => none

/-- Conversation state: three append-only role lists and an optional
singleton system message, as in `Conversation.__init__`. -/
structure Conversation where
  user_messages : List LLMUserMessage := []
  assistant_messages : List LLMAssistantMessage := []
  tool_messages : List LLMToolMessage := []
  system_message : Option LLMSystemMessage := none
deriving DecidableEq, Repr

/-- Sort key comparison of `Conversation.render`: non-decreasing
`created_at`. -/
def msgLE (a b : Message) : Bool :=
  a.created_at ≤ b.created_at

/-- The concatenation `self._user_messages + self._assistant_messages +
self._tool_messages` that `Conversation.render` sorts. -/
def Conversation.nonSystemMessages (c : Conversation) : List Message :=
  c.user_messages.map Message.user ++ c.assistant_messages.map Message.assistant
    ++ c.tool_messages.map Message.tool

/-- `Conversation.render`: the system message if set, then the other
messages sorted by `created_at`. Python's `sorted` is a stable sort, which
`List.mergeSort` is as well. -/
def Conversation.render (c : Conversation) : List Message :=
  (match c.system_message with
    | some s => [Message.system s]
    | none => []) ++ (c.nonSystemMessages).mergeSort msgLE

/-- One mutation of the conversation through its public interface
(`add_user_message`, `add_assistant_message`, `add_tool_message`,
`set_system_message`). -/
inductive ConvOp where
  | addUser (m : LLMUserMessage)
  | addAssistant (m : LLMAssistantMessage)
  | addTool (m : LLMToolMessage)
  | setSystem (m : LLMSystemMessage)
deriving DecidableEq, Repr

/-- Effect of one `ConvOp` on the conversation state. -/
def Conversation.applyOp (c : Conversation) : ConvOp → Conversation
  | .addUser m => { c with user_messages := c.user_messages ++ [m] }
  | .addAssistant m => { c with assistant_messages := c.assistant_messages ++ [m] }
  | .addTool m => { c with tool_messages := c.tool_messages ++ [m] }
  | .setSystem m => { c with system_message := some m }

/-- Effect of a sequence of interface mutations, in order. -/
def Conversation.applyOps (c : Conversation) (ops : List ConvOp) : Conversation :=
  ops.foldl Conversation.applyOp c

/-- `Conversation.session`, with the enclosed unit of work given by the
interface mutations it performs (`ops`) and whether it then raises
(`workErr`). On entry the three list lengths are snapshotted; if the work
raises, each list is truncated back to its snapshot (`list[:n]`) and the
same error is re-raised; otherwise state and result pass through. -/
def Conversation.session {ε : Type} (c : Conversation) (ops : List ConvOp)
    (workErr : Option ε) : Conversation × Option ε :=
  let num_user_messages := c.user_messages.length
  let num_assistant_messages := c.assistant_messages.length
  let num_tool_messages := c.tool_messages.length
  let c1 := c.applyOps ops
  match workErr with
  | none => (c1, none)
  | some e =>
    ({ c1 with
        user_messages := c1.user_messages.take num_user_messages,
        assistant_messages := c1.assistant_messages.take num_assistant_messages,
        tool_messages := c1.tool_messages.take num_tool_messages }, some e)

/-- Outcome of `with_temporary_system_message`: normal completion, the
`AIError` raised when no system message exists, or the error re-raised from
the enclosed work. -/
inductive TempSystemOutcome (ε : Type) where
  | ok
  | noSystemMessage
  | raised (e : ε)
deriving DecidableEq, Repr

/-- `Conversation.with_temporary_system_message`, with the enclosed unit of
work given by the interface mutations it performs and whether it then
raises. Raises when no system message is set; otherwise appends the part to
the system message's parts, runs the work, and pops the last part again —
but only on the normal exit path (the context manager has no `finally`), so
a raising work leaves the appended part in place. -/
def Conversation.with_temporary_system_message {ε : Type} (c : Conversation)
    (message_part : LLMMessagePart) (ops : List ConvOp) (workErr : Option ε) :
    Conversation × TempSystemOutcome ε :=
  match c.system_message with
  | none => (c, .noSystemMessage)
  | some s =>
    let c1 := { c with system_message := some { s with parts := s.parts ++ [message_part] } }
    let c2 := c1.applyOps ops
    match workErr with
    | some e => (c2, .raised e)
    | none =>
      match c2.system_message with
      | some s2 =>
        ({ c2 with system_message := some { s2 with parts := s2.parts.dropLast } }, .ok)
      | none => (c2, .ok)

/-- True when none of the work's mutations replaces the system message. -/
def noSetSystem (ops : List ConvOp) : Bool :=
  ops.all (fun op => match op with
    | .setSystem _ => false
    | _ => true)

/-- Lookup of a field of a JSON object by key (first occurrence). -/
def jsonLookup (fields : List (String × JsonValue)) (key : String) : Option JsonValue :=
  (fields.find? (fun kv => kv.1 == key)).map (fun kv => kv.2)

/-- Pydantic serialization of one message part. -/
def encodePart (p : LLMMessagePart) : JsonValue :=
  .obj [("content", .str p.content), ("content_type", .str p.content_type.value)]

/-- Pydantic validation of one message part; the content type defaults to
TEXT when the field is absent. -/
def decodePart (j : JsonValue) : Option LLMMessagePart :=
  match j with
  | .obj fields =>
    match jsonLookup fields "content" with
    | some (.str content) =>
      match jsonLookup fields "content_type" with
      | some (.str ct) => (LLMMessageContentType.ofValue ct).map
          (fun t => { content := content, content_type := t })
      | none => some { content := content, content_type := .text }
      | some _ => none
    | _ => none
  | _ => none

/-- Pydantic validation of a parts array. -/
def decodeParts (j : JsonValue) : Option (List LLMMessagePart) :=
  match j with
  | .arr items => items.mapM decodePart
  | _ => none

/-- Pydantic `model_dump_json` of a system message (the computed `role`
field is included in the dump). -/
def encodeSystemMessage (m : LLMSystemMessage) : JsonValue :=
  .obj [("parts", .arr (m.parts.map encodePart)), ("created_at", .num (m.created_at : Int)),
        ("role", .str "system")]

/-- Pydantic `model_dump_json` of a user message. -/
def encodeUserMessage (m : LLMUserMessage) : JsonValue :=
  .obj [("parts", .arr (m.parts.map encodePart)), ("created_at", .num (m.created_at : Int)),
        ("role", .str "user")]

/-- Pydantic `model_dump_json` of an assistant message. -/
def encodeAssistantMessage (m : LLMAssistantMessage) : JsonValue :=
  .obj [("parts", .arr (m.parts.map encodePart)), ("created_at", .num (m.created_at : Int)),
        ("role", .str "assistant")]

/-- Pydantic `model_dump_json` of a tool message. The `Json[str]`-typed
fields `response` and `function_call.arguments` are dumped as their stored
(already decoded) string values — pydantic only re-encodes them under
`round_trip=True`, which the source does not use. -/
def encodeToolMessage (m : LLMToolMessage) : JsonValue :=
  .obj [("parts", .arr (m.parts.map encodePart)), ("created_at", .num (m.created_at : Int)),
        ("tool_call_id", .str m.tool_call_id), ("name", .str m.name),
        ("response", .str m.response),
        ("function_call", .obj [("name", .str m.function_call.name),
                                ("arguments", .str m.function_call.arguments)])]

/-- Decoded `created_at` field. -/
def decodeCreatedAt (fields : List (String × JsonValue)) : Option Nat :=
  match jsonLookup fields "created_at" with
  | some (.num n) => if n < 0 then none else some n.toNat
  | _ => none

/-- Pydantic `model_validate_json` of a system message. Unknown fields (such
as the dumped computed `role`) are ignored. -/
def decodeSystemMessage (j : JsonValue) : Option LLMSystemMessage :=
  match j with
  | .obj fields =>
    match jsonLookup fields "parts" with
    | some partsJson =>
      match decodeParts partsJson with
      | some parts =>
        (decodeCreatedAt fields).map (fun t => { parts := parts, created_at := t })
      | none => none
    | none => none
  | _ => none

/-- Pydantic `model_validate_json` of a user message. -/
def decodeUserMessage (j : JsonValue) : Option LLMUserMessage :=
  match j with
  | .obj fields =>
    match jsonLookup fields "parts" with
    | some partsJson =>
      match decodeParts partsJson with
      | some parts =>
        (decodeCreatedAt fields).map (fun t => { parts := parts, created_at := t })
      | none => none
    | none => none
  | _ => none

/-- Pydantic `model_validate_json` of an assistant message: re-runs the
`no_media_parts` validator. -/
def decodeAssistantMessage (j : JsonValue) : Option LLMAssistantMessage :=
  match j with
  | .obj fields =>
    match jsonLookup fields "parts" with
    | some partsJson =>
      match decodeParts partsJson with
      | some parts =>
        if parts.any (fun part => part.content_type != .text) then none
        else (decodeCreatedAt fields).map (fun t => { parts := parts, created_at := t })
      | none => none
    | none => none
  | _ => none

/-- Pydantic validation of a `Json[str]` field: the incoming value must be a
JSON string whose content is itself a JSON document decoding to a string;
the stored value is that decoded string. -/
def decodeJsonStrField (j : JsonValue) : Option String :=
  match j with
  | .str s =>
    match pyJsonLoads s with
    | some (.str v) => some v
    | _ => none
  | _ => none

/-- Pydantic `model_validate_json` of a tool message: validates the
`Json[str]` fields and re-runs the `no_parts` validator (`parts` defaults to
the empty list when absent). -/
def decodeToolMessage (j : JsonValue) : Option LLMToolMessage :=
  match j with
  | .obj fields =>
    match jsonLookup fields "tool_call_id", jsonLookup fields "name" with
    | some (.str tool_call_id), some (.str name) =>
      match jsonLookup fields "response" with
      | some responseJson =>
        match decodeJsonStrField responseJson with
        | some response =>
          match jsonLookup fields "function_call" with
          | some (.obj fcFields) =>
            match jsonLookup fcFields "name", jsonLookup fcFields "arguments" with
            | some (.str fcName), some argsJson =>
              match decodeJsonStrField argsJson with
              | some fcArguments =>
                match (match jsonLookup fields "parts" with
                       | some partsJson => decodeParts partsJson
                       | none => some []) with
                | some parts =>
                  if parts.isEmpty then
                    (decodeCreatedAt fields).map (fun t =>
                      { tool_call_id := tool_call_id, name := name, response := response,
                        function_call := { name := fcName, arguments := fcArguments },
                        parts := parts, created_at := t })
                  else none
                | none => none
              | none => none
            | _, _ => none
          | _ => none
        | none => none
      | none => none
    | _, _ => none
  | _ => none

/-- The JSON envelope `Conversation.dump` produces: one optional system
entry and three lists of individually serialized messages. The outer
`json.dumps`/`json.loads` pair of the envelope string is lossless and is
modelled as the identity on documents. -/
structure DumpEnvelope where
  system : Option JsonValue
  user : List JsonValue
  assistant : List JsonValue
  tool : List JsonValue
deriving Repr

/-- `Conversation.dump`: serialize each message with `model_dump_json` into
the envelope. -/
def Conversation.dump (c : Conversation) : DumpEnvelope :=
  { system := c.system_message.map encodeSystemMessage,
    user := c.user_messages.map encodeUserMessage,
    assistant := c.assistant_messages.map encodeAssistantMessage,
    tool := c.tool_messages.map encodeToolMessage }

/-- `Conversation.load`: validate each embedded message against its variant,
failing with the `Invalid conversation dump` error if any validation
fails. -/
def Conversation.load (dump : DumpEnvelope) : Except AIErr Conversation :=
  match (match dump.system with
         | none => some none
         | some j => (decodeSystemMessage j).map some) with
  | none => .error .invalidDump
  | some sys =>
    match dump.user.mapM decodeUserMessage with
    | none => .error .invalidDump
    | some users =>
      match dump.assistant.mapM decodeAssistantMessage with
      | none => .error .invalidDump
      | some assistants =>
        match dump.tool.mapM decodeToolMessage with
        | none => .error .invalidDump
        | some tools =>
          .ok { user_messages := users, assistant_messages := assistants,
                tool_messages := tools, system_message := sys }

/-- One wire-format content block (`LiteLLMTextMessagePart` or
`LiteLLMMediaMessagePart`). -/
inductive LiteLLMMessagePart where
  | text (text : String)
  | imageUrl (image_url : String)
deriving DecidableEq, Repr

/-- Wire-format message content: a block list for system/user/assistant
messages, a plain string for a tool response message, or `null` for a tool
invocation message. -/
inductive LiteLLMContent where
  | parts (items : List LiteLLMMessagePart)
  | text (s : String)
  | null
deriving DecidableEq, Repr

/-- One function-call entry of a wire message's `tool_calls` field (the
constant `type: "function"` tag is omitted). -/
structure LiteLLMToolCallEntry where
  id : String
  function_name : String
  function_arguments : String
deriving DecidableEq, Repr

/-- One wire-format message (`LiteLLMMessage`). -/
structure LiteLLMMessage where
  role : String
  content : LiteLLMContent
  tool_call_id : Option String := none
  name : Option String := none
  tool_calls : Option (List LiteLLMToolCallEntry) := none
deriving DecidableEq, Repr

/-- Wire-format tool descriptor (`LiteLLMTool`; the constant `type:
"function"` tag is omitted). -/
structure LiteLLMTool where
  function_name : String
  function_description : String
  function_parameters : JsonValue
deriving Repr

/-- `_LLMMessage.render_parts`: a TEXT part becomes a text block, any other
part a base64 data-URI media block. -/
def renderParts (parts : List LLMMessagePart) : List LiteLLMMessagePart :=
  parts.map (fun part =>
    if part.content_type = .text then .text part.content
    else .imageUrl ("data:" ++ part.content_type.value ++ ";base64," ++ part.content))

/-- `LLMSystemMessage.render`. -/
def LLMSystemMessage.render (m : LLMSystemMessage) : LiteLLMMessage :=
  { role := "system", content := .parts (renderParts m.parts) }

/-- `LLMUserMessage.render`. -/
def LLMUserMessage.render (m : LLMUserMessage) : LiteLLMMessage :=
  { role := "user", content := .parts (renderParts m.parts) }

/-- `LLMAssistantMessage.render`. -/
def LLMAssistantMessage.render (m : LLMAssistantMessage) : LiteLLMMessage :=
  { role := "assistant", content := .parts (renderParts m.parts) }

/-- `LLMToolMessage.render_call_and_response`: the assistant-role invocation
message and the tool-role response message, sharing one `tool_call_id`. -/
def LLMToolMessage.render_call_and_response (m : LLMToolMessage) :
    LiteLLMMessage × LiteLLMMessage :=
  ({ role := "assistant", content := .null, tool_call_id := some m.tool_call_id,
     name := some m.name,
     tool_calls := some [{ id := m.tool_call_id, function_name := m.name,
                           function_arguments := m.function_call.arguments }] },
   { role := "tool", content := .text m.response, tool_call_id := some m.tool_call_id,
     name := some m.name })

/-- `LLMTool.render`. -/
def LLMTool.render (t : LLMTool) : LiteLLMTool :=
  { function_name := t.name, function_description := t.description,
    function_parameters := t.parameters }

/-- The message-rendering loop shared by every completion helper: each tool
message is split into its invocation/response pair, every other message
renders to a single wire message. -/
def renderMessageList : List Message → List LiteLLMMessage
  | [] => []
  | .system m :: rest => m.render :: renderMessageList rest
  | .user m :: rest => m.render :: renderMessageList rest
  | .assistant m :: rest => m.render :: renderMessageList rest
  | .tool m :: rest =>
    (m.render_call_and_response).1 :: (m.render_call_and_response).2 :: renderMessageList rest

/-- Transport-level errors the litellm router can raise
(`ServiceUnavailableError`, `RateLimitError`, or any other transport
exception). -/
inductive TransportError where
  | serviceUnavailable
  | rateLimit
  | other (message : String)
deriving DecidableEq, Repr

/-- Errors a router completion helper can surface to its caller: the domain
kinds raised in the source (`ModelUnavailableError`, `RateLimitExceededError`,
`NoResponseError`, declared in the `aikernel.errors` module) or a transport
exception left uncaught. -/
inductive RouterHelperError where
  | modelUnavailable
  | rateLimitExceeded
  | noResponse
  | transport (e : TransportError)
deriving DecidableEq, Repr

/-- One function-call entry of a normalized router completion
(`ModelResponseChoiceToolCall`; the constant `type: "function"` tag is
omitted). -/
structure ModelResponseChoiceToolCall where
  id : String
  function_name : String
  function_arguments : String
deriving DecidableEq, Repr

/-- The assistant message of one router completion choice
(`ModelResponseChoiceMessage`; the constant `role: "assistant"` tag is
omitted). -/
structure ModelResponseChoiceMessage where
  content : String
  tool_calls : Option (List ModelResponseChoiceToolCall) := none
deriving DecidableEq, Repr

/-- One choice of a router completion (`ModelResponseChoice`; the constant
`finish_reason: "stop"` tag and the index are omitted). -/
structure ModelResponseChoice where
  message : ModelResponseChoiceMessage
deriving DecidableEq, Repr

/-- Usage block of a router completion (`ModelResponseUsage`). -/
structure ModelResponseUsage where
  completion_tokens : Nat
  prompt_tokens : Nat
  total_tokens : Nat
deriving DecidableEq, Repr

/-- Normalized raw result of a router completion (`ModelResponse`; the
provider metadata fields `id`, `created`, `model`, `object`,
`system_fingerprint` are omitted as inert). -/
structure ModelResponse where
  choices : List ModelResponseChoice
  usage : ModelResponseUsage
deriving DecidableEq, Repr

/-- Usage block of a typed response (`LLMUsage` in `types/response.py`;
the completion helpers reference it as `LLMResponseUsage`). -/
structure LLMUsage where
  input_tokens : Nat
  output_tokens : Nat
deriving DecidableEq, Repr

/-- `UnstructuredLLMResponse`. -/
structure UnstructuredLLMResponse where
  text : String
  usage : LLMUsage
deriving DecidableEq, Repr

/-- `StructuredLLMResponse[T]`. The `structure: type[T]` field is modelled
by its one used capability, `model_validate_json`, as the validator
`structure_`; the class declares no model validator, so construction runs
no checks. -/
structure StructuredLLMResponse (T : Type) where
  text : String
  structure_ : String → Option T
  usage : LLMUsage

/-- The `structured_response` computed property: validates the stored text
against the target schema on every access, raising `ValidationFailure`
exactly when validation fails. -/
def StructuredLLMResponse.structured_response {T : Type} (r : StructuredLLMResponse T) :
    Except AIErr T :=
  match r.structure_ r.text with
  | some v => .ok v
  | none => .error .validationFailure

/-- `llm_structured_sync`: renders the messages, completes through the
router (here the transport collaborator `router_complete`, returning either
a normalized result or a raised transport error), remaps the two named
transport errors to domain kinds, checks for an empty choice list, and
builds the lazily-validated structured response. -/
def llm_structured_sync {T : Type} (messages : List Message)
    (router_complete : List LiteLLMMessage → Except TransportError ModelResponse)
    (response_model : String → Option T) :
    Except RouterHelperError (StructuredLLMResponse T) :=
  let rendered_messages := renderMessageList messages
  match router_complete rendered_messages with
  | .error .serviceUnavailable => .error .modelUnavailable
  | .error .rateLimit => .error .rateLimitExceeded
  | .error e => .error (.transport e)
  | .ok response =>
    match response.choices with
    | [] => .error .noResponse
    | choice :: _ =>
      .ok { text := choice.message.content, structure_ := response_model,
            usage := { input_tokens := response.usage.prompt_tokens,
                       output_tokens := response.usage.completion_tokens } }

/-- `llm_structured`, the suspending twin of `llm_structured_sync`; its body
is identical apart from awaiting the router call. -/
def llm_structured {T : Type} (messages : List Message)
    (router_acomplete : List LiteLLMMessage → Except TransportError ModelResponse)
    (response_model : String → Option T) :
    Except RouterHelperError (StructuredLLMResponse T) :=
  let rendered_messages := renderMessageList messages
  match router_acomplete rendered_messages with
  | .error .serviceUnavailable => .error .modelUnavailable
  | .error .rateLimit => .error .rateLimitExceeded
  | .error e => .error (.transport e)
  | .ok response =>
    match response.choices with
    | [] => .error .noResponse
    | choice :: _ =>
      .ok { text := choice.message.content, structure_ := response_model,
            usage := { input_tokens := response.usage.prompt_tokens,
                       output_tokens := response.usage.completion_tokens } }

/-- `llm_unstructured_sync`: renders the messages and completes through the
router. The source wraps the router call in no `try`, so every transport
error propagates to the caller unchanged. -/
def llm_unstructured_sync (messages : List Message)
    (router_complete : List LiteLLMMessage → Except TransportError ModelResponse) :
    Except RouterHelperError UnstructuredLLMResponse :=
  let rendered_messages := renderMessageList messages
  match router_complete rendered_messages with
  | .error e => .error (.transport e)
  | .ok response =>
    match response.choices with
    | [] => .error .noResponse
    | choice :: _ =>
      .ok { text := choice.message.content,
            usage := { input_tokens := response.usage.prompt_tokens,
                       output_tokens := response.usage.completion_tokens } }

/-- `llm_unstructured`, the suspending twin of `llm_unstructured_sync`; like
it, it performs no transport-error remapping. -/
def llm_unstructured (messages : List Message)
    (router_acomplete : List LiteLLMMessage → Except TransportError ModelResponse) :
    Except RouterHelperError UnstructuredLLMResponse :=
  let rendered_messages := renderMessageList messages
  match router_acomplete rendered_messages with
  | .error e => .error (.transport e)
  | .ok response =>
    match response.choices with
    | [] => .error .noResponse
    | choice :: _ =>
      .ok { text := choice.message.content,
            usage := { input_tokens := response.usage.prompt_tokens,
                       output_tokens := response.usage.completion_tokens } }

/-- The `LLMModel` aliases of `types/request.py`. -/
inductive LLMModel where
  | vertex_gemini_2_0_flash
  | vertex_gemini_2_0_flash_lite
  | vertex_gemini_2_0_pro_exp_02_05
  | gemini_2_0_flash
  | gemini_2_0_flash_lite
  | gemini_2_0_pro_exp_02_05
deriving DecidableEq, Repr

/-- String value of each `LLMModel` member. -/
def LLMModel.value : LLMModel → String
  | .vertex_gemini_2_0_flash => "vertex_ai/gemini-2.0-flash"
  | .vertex_gemini_2_0_flash_lite => "vertex_ai/gemini-2.0-flash-lite"
  | .vertex_gemini_2_0_pro_exp_02_05 => "vertex_ai/gemini-2.0-pro-exp-02-05"
  | .gemini_2_0_flash => "gemini/gemini-2.0-flash"
  | .gemini_2_0_flash_lite => "gemini/gemini-2.0-flash-lite"
  | .gemini_2_0_pro_exp_02_05 => "gemini/gemini-2.0-pro-exp-02-05"

/-- `LLMToolCall` (`types/response.py`): the class has no `id` field, so the
`id` keyword passed at the construction site is dropped by pydantic;
`arguments: dict[str, Any]` is the decoded JSON object. -/
structure LLMToolCall where
  tool_name : String
  arguments : List (String × JsonValue)
deriving Repr

/-- `ToolLLMResponse`. Constructed through `ToolLLMResponse.create`, which
runs the `at_least_one_field` model validator. -/
structure ToolLLMResponse where
  tool_call : Option LLMToolCall
  text : Option String
  usage : LLMUsage
deriving Repr

/-- Pydantic construction of `ToolLLMResponse`: the `at_least_one_field`
validator rejects a response with neither a tool call nor text. -/
def ToolLLMResponse.create (tool_call : Option LLMToolCall) (text : Option String)
    (usage : LLMUsage) : Except AIErr ToolLLMResponse :=
  if tool_call.isNone && text.isNone then .error .validationFailure
  else .ok { tool_call := tool_call, text := text, usage := usage }

/-- `StrictToolLLMResponse`: a never-null tool call. -/
structure StrictToolLLMResponse where
  tool_call : LLMToolCall
  usage : LLMUsage
deriving Repr

/-- The two tool-choice policies of the tool-call helpers. -/
inductive ToolChoice where
  | auto
  | required
deriving DecidableEq, Repr

/-- The union of the two response types a tool-call helper can return. -/
inductive ToolCallResult where
  | toolResponse (r : ToolLLMResponse)
  | strictToolResponse (r : StrictToolLLMResponse)
deriving Repr

/-- One tool-call entry of the raw litellm completion consumed by the
tool-call helpers (the litellm client type; `function.name` and
`function.arguments` flattened). -/
structure RawToolCall where
  id : String
  function_name : String
  function_arguments : String
deriving DecidableEq, Repr

/-- The assistant message of one raw litellm completion choice; unlike the
router-normalized `ModelResponse`, its `content` can be null. -/
structure RawChoiceMessage where
  content : Option String := none
  tool_calls : Option (List RawToolCall) := none
deriving DecidableEq, Repr

/-- One choice of a raw litellm completion. -/
structure RawChoice where
  message : RawChoiceMessage
deriving DecidableEq, Repr

/-- Usage block of a raw litellm completion. -/
structure RawUsage where
  prompt_tokens : Nat
  completion_tokens : Nat
deriving DecidableEq, Repr

/-- Raw litellm completion result consumed by the tool-call helpers. -/
structure RawCompletionResponse where
  choices : List RawChoice
  usage : RawUsage
deriving DecidableEq, Repr

/-- `llm_tool_call_sync` (`tools.py`): renders messages and tools, calls the
litellm `completion` collaborator directly, and normalizes the result. With
no choices it raises `NoResponse`; with no tool calls it raises
`NoToolCallFound` under `required` and otherwise builds a `ToolLLMResponse`
from the content; with at least one call it resolves the first call against
the supplied tool list by name, decodes its arguments with `json.loads`
(a non-object decode fails pydantic's `dict[str, Any]` validation), and —
for `auto` as well as for `required` — returns a `StrictToolLLMResponse`. -/
def llm_tool_call_sync (messages : List Message) (model : LLMModel)
    (tools : List LLMTool) (tool_choice : ToolChoice)
    (completion : List LiteLLMMessage → String → List LiteLLMTool → ToolChoice →
      RawCompletionResponse) :
    Except AIErr ToolCallResult :=
  let rendered_messages := renderMessageList messages
  let rendered_tools := tools.map LLMTool.render
  let response := completion rendered_messages model.value rendered_tools tool_choice
  match response.choices with
  | [] => .error .noResponse
  | choice :: _ =>
    let usage : LLMUsage := { input_tokens := response.usage.prompt_tokens,
                              output_tokens := response.usage.completion_tokens }
    match (choice.message.tool_calls).getD [] with
    | [] =>
      if tool_choice = .required then .error .noToolCallFound
      else (ToolLLMResponse.create none choice.message.content usage).map .toolResponse
    | call :: _ =>
      match tools.find? (fun tool => tool.name == call.function_name) with
      | none => .error .toolCallMismatch
      | some chosen_tool =>
        match pyJsonLoads call.function_arguments with
        | none => .error .invalidToolCallArguments
        | some (.obj kvs) =>
          .ok (.strictToolResponse { tool_call := { tool_name := chosen_tool.name,
                                                    arguments := kvs },
                                     usage := usage })
        | some _ => .error .validationFailure

/-- `llm_tool_call`, the suspending twin of `llm_tool_call_sync`; its body
is identical apart from awaiting the completion call. -/
def llm_tool_call (messages : List Message) (model : LLMModel)
    (tools : List LLMTool) (tool_choice : ToolChoice)
    (acompletion : List LiteLLMMessage → String → List LiteLLMTool → ToolChoice →
      RawCompletionResponse) :
    Except AIErr ToolCallResult :=
  let rendered_messages := renderMessageList messages
  let rendered_tools := tools.map LLMTool.render
  let response := acompletion rendered_messages model.value rendered_tools tool_choice
  match response.choices with
  | [] => .error .noResponse
  | choice :: _ =>
    let usage : LLMUsage := { input_tokens := response.usage.prompt_tokens,
                              output_tokens := response.usage.completion_tokens }
    match (choice.message.tool_calls).getD [] with
    | [] =>
      if tool_choice = .required then .error .noToolCallFound
      else (ToolLLMResponse.create none choice.message.content usage).map .toolResponse
    | call :: _ =>
      match tools.find? (fun tool => tool.name == call.function_name) with
      | none => .error .toolCallMismatch
      | some chosen_tool =>
        match pyJsonLoads call.function_arguments with
        | none => .error .invalidToolCallArguments
        | some (.obj kvs) =>
          .ok (.strictToolResponse { tool_call := { tool_name := chosen_tool.name,
                                                    arguments := kvs },
                                     usage := usage })
        | some _ => .error .validationFailure

/-- The fallback table `get_router` builds: one singleton entry per model,
mapping it to every other member of the tuple in original order
(`[other_model for other_model in models if other_model != model]`). -/
def getRouterFallbacks (models : List String) : List (String × List String) :=
  models.map (fun model => (model, models.filter (fun other_model => other_model != model)))

/-- The `get_weather` example tool of the spec's test vector. -/
def get_weather_tool : LLMTool :=
  { name := "get_weather", description := "Get the current weather", parameters := .obj [] }

/-- The spec's test-vector raw completion: one choice carrying exactly one
tool call of `get_weather` with arguments decoding to a Tokyo location. -/
def tokyoToolCallResponse : RawCompletionResponse :=
  { choices := [{ message :=
        { content := none,
          tool_calls := some [{ id := "1",
                                function_name := "get_weather",
                                function_arguments := "\x7b\"location\":\"Tokyo\"\x7d" }] } }],
    usage := { prompt_tokens := 10, completion_tokens := 5 } }

/-- A conversation holding one user message and one API-constructible tool
message whose stored `response` value is the plain string decoded at
construction (not itself a JSON document). -/
def jsonFieldConv : Conversation :=
  { user_messages := [{ parts := [{ content := "hello" }], created_at := 1 }],
    tool_messages := [{ tool_call_id := "call1", name := "get_weather",
                        response := "sunny",
                        function_call := { name := "get_weather",
                                           arguments := "\x7b\"location\":\"Tokyo\"\x7d" },
                        parts := [], created_at := 2 }] }

/-- A conversation with no system message. -/
def emptyConv : Conversation := {}

/-- The system message of the concrete conversation used to exercise the
temporary-system-message scope. -/
def baseSystemMessage : LLMSystemMessage :=
  { parts := [{ content := "base" }], created_at := 0 }

/-- A conversation whose system message is set. -/
def sysConv : Conversation := { system_message := some baseSystemMessage }

theorem msgLE_trans : ∀ (a b c : Message), msgLE a b → msgLE b c → msgLE a c := by
  intro a b c hab hbc
  simp only [msgLE, decide_eq_true_eq] at *
  omega

theorem msgLE_total : ∀ (a b : Message), msgLE a b || msgLE b a := by
  intro a b
  simp only [msgLE, Bool.or_eq_true, decide_eq_true_eq]
  omega

theorem pairwise_msgLE_of_all_eq (t : Nat) :
    ∀ (l : List Message), (∀ m ∈ l, m.created_at = t) →
      l.Pairwise (fun a b => msgLE a b) := by
  intro l
  induction l with
  | nil => intro; exact List.Pairwise.nil
  | cons a tl ih =>
    intro h
    refine List.pairwise_cons.mpr ⟨?_, ih (fun m hm => h m (List.mem_cons_of_mem a hm))⟩
    intro b hb
    have ha := h a (List.mem_cons_self a tl)
    have hb' := h b (List.mem_cons_of_mem a hb)
    simp [msgLE, ha, hb']

theorem filter_key_mergeSort (l : List Message) (t : Nat) :
    (l.mergeSort msgLE).filter (fun m => m.created_at == t)
      = l.filter (fun m => m.created_at == t) := by
  have hall : ∀ m ∈ l.filter (fun m => m.created_at == t), m.created_at = t := by
    intro m hm
    have := List.of_mem_filter hm
    simpa using this
  have hpair : (l.filter (fun m => m.created_at == t)).Pairwise (fun a b => msgLE a b) :=
    pairwise_msgLE_of_all_eq t _ hall
  have hsub : List.Sublist (l.filter (fun m => m.created_at == t)) (l.mergeSort msgLE) :=
    List.sublist_mergeSort msgLE_trans msgLE_total hpair (List.filter_sublist l)
  have hself : (l.filter (fun m => m.created_at == t)).filter (fun m => m.created_at == t)
      = l.filter (fun m => m.created_at == t) :=
    List.filter_eq_self.mpr (fun a ha => (List.mem_filter.mp ha).2)
  have hsub2 : List.Sublist (l.filter (fun m => m.created_at == t))
      ((l.mergeSort msgLE).filter (fun m => m.created_at == t)) := by
    have := hsub.filter (fun m => m.created_at == t)
    rwa [hself] at this
  have hlen : ((l.mergeSort msgLE).filter (fun m => m.created_at == t)).length
      = (l.filter (fun m => m.created_at == t)).length :=
    (((List.mergeSort_perm l msgLE)).filter (fun m => m.created_at == t)).length_eq
  exact (hsub2.eq_of_length hlen.symm).symm

/-- C3: for every conversation state — hence regardless of the order in
which messages were added — `render()` puts the system message (if set)
first, and the remaining block is exactly the user, assistant, and tool
messages (a permutation of their concatenation) in non-decreasing
`created_at` order. -/
theorem claim3_render_system_first_then_sorted (c : Conversation) :
    c.render = (c.system_message.elim [] (fun s => [Message.system s]))
        ++ (c.nonSystemMessages).mergeSort msgLE
    ∧ ((c.nonSystemMessages).mergeSort msgLE).Perm c.nonSystemMessages
    ∧ ((c.nonSystemMessages).mergeSort msgLE).Pairwise
        (fun a b => a.created_at ≤ b.created_at) := by
  refine ⟨?_, List.mergeSort_perm _ _, ?_⟩
  · cases h : c.system_message <;> simp [Conversation.render, h]
  · have := List.sorted_mergeSort msgLE_trans msgLE_total c.nonSystemMessages
    exact this.imp (fun h => by simpa [msgLE] using h)

/-- C10: among messages tied on `created_at`, `render()`'s sorted block
keeps all user messages first, then assistant, then tool messages, each
group in insertion order — the stable sort preserves the order of the
concatenated role lists on every equal-key class. -/
theorem claim10_tie_break_determinism (c : Conversation) (t : Nat) :
    ((c.nonSystemMessages).mergeSort msgLE).filter (fun m => m.created_at == t)
      = (c.user_messages.filter (fun m => m.created_at == t)).map Message.user
        ++ (c.assistant_messages.filter (fun m => m.created_at == t)).map Message.assistant
        ++ (c.tool_messages.filter (fun m => m.created_at == t)).map Message.tool := by
  rw [filter_key_mergeSort]
  simp only [Conversation.nonSystemMessages, List.filter_append, List.filter_map]
  rfl

theorem applyOps_user_suffix (ops : List ConvOp) :
    ∀ (c : Conversation), ∃ added,
      (c.applyOps ops).user_messages = c.user_messages ++ added := by
  induction ops with
  | nil => intro c; exact ⟨[], by simp [Conversation.applyOps]⟩
  | cons op rest ih =>
    intro c
    obtain ⟨added, h⟩ := ih (c.applyOp op)
    cases op <;>
      simp only [Conversation.applyOps, List.foldl_cons] at h ⊢ <;>
      simp [Conversation.applyOp] at h ⊢ <;>
      rw [h] <;> simp

theorem applyOps_assistant_suffix (ops : List ConvOp) :
    ∀ (c : Conversation), ∃ added,
      (c.applyOps ops).assistant_messages = c.assistant_messages ++ added := by
  induction ops with
  | nil => intro c; exact ⟨[], by simp [Conversation.applyOps]⟩
  | cons op rest ih =>
    intro c
    obtain ⟨added, h⟩ := ih (c.applyOp op)
    cases op <;>
      simp only [Conversation.applyOps, List.foldl_cons] at h ⊢ <;>
      simp [Conversation.applyOp] at h ⊢ <;>
      rw [h] <;> simp

theorem applyOps_tool_suffix (ops : List ConvOp) :
    ∀ (c : Conversation), ∃ added,
      (c.applyOps ops).tool_messages = c.tool_messages ++ added := by
  induction ops with
  | nil => intro c; exact ⟨[], by simp [Conversation.applyOps]⟩
  | cons op rest ih =>
    intro c
    obtain ⟨added, h⟩ := ih (c.applyOp op)
    cases op <;>
      simp only [Conversation.applyOps, List.foldl_cons] at h ⊢ <;>
      simp [Conversation.applyOp] at h ⊢ <;>
      rw [h] <;> simp

theorem applyOps_system_of_noSetSystem (ops : List ConvOp) :
    ∀ (c : Conversation), noSetSystem ops = true →
      (c.applyOps ops).system_message = c.system_message := by
  induction ops with
  | nil => intro c _; simp [Conversation.applyOps]
  | cons op rest ih =>
    intro c h
    simp only [noSetSystem, List.all_cons, Bool.and_eq_true] at h
    have hrest : noSetSystem rest = true := h.2
    cases op with
    | addUser m =>
      simpa [Conversation.applyOps, Conversation.applyOp] using ih _ hrest
    | addAssistant m =>
      simpa [Conversation.applyOps, Conversation.applyOp] using ih _ hrest
    | addTool m =>
      simpa [Conversation.applyOps, Conversation.applyOp] using ih _ hrest
    | setSystem m => simp at h

/-- C5: if the unit of work enclosed by `session()` — modelled by the
interface mutations it performed before raising — raises, the three message
lists are restored exactly to their states at session entry and the same
error propagates; on normal completion the mutated state passes through and
no message is removed (each entry-state list is a prefix of the exit-state
list). -/
theorem claim5_session_rollback {ε : Type} (c : Conversation) (ops : List ConvOp) (e : ε) :
    ((c.session ops (some e)).1.user_messages = c.user_messages
      ∧ (c.session ops (some e)).1.assistant_messages = c.assistant_messages
      ∧ (c.session ops (some e)).1.tool_messages = c.tool_messages
      ∧ (c.session ops (some e)).2 = some e)
    ∧ (c.session ops (none : Option ε) = (c.applyOps ops, none)
      ∧ (∃ added, (c.session ops (none : Option ε)).1.user_messages
          = c.user_messages ++ added)
      ∧ (∃ added, (c.session ops (none : Option ε)).1.assistant_messages
          = c.assistant_messages ++ added)
      ∧ (∃ added, (c.session ops (none : Option ε)).1.tool_messages
          = c.tool_messages ++ added)) := by
  obtain ⟨au, hu⟩ := applyOps_user_suffix ops c
  obtain ⟨aa, ha⟩ := applyOps_assistant_suffix ops c
  obtain ⟨at_, ht⟩ := applyOps_tool_suffix ops c
  refine ⟨⟨?_, ?_, ?_, rfl⟩, rfl, ⟨au, ?_⟩, ⟨aa, ?_⟩, ⟨at_, ?_⟩⟩
  · simp [Conversation.session, hu, List.take_left']
  · simp [Conversation.session, ha, List.take_left']
  · simp [Conversation.session, ht, List.take_left']
  · simpa [Conversation.session] using hu
  · simpa [Conversation.session] using ha
  · simpa [Conversation.session] using ht

/-- C6: `with_temporary_system_message` fails with the no-system-message
error (leaving the state unchanged) when no system message is set; with a
system message set and an enclosed unit of work that does not replace it,
the given part is appended on entry and popped again on normal exit, while
a raising work propagates its error with the appended part left in
place. -/
theorem claim6_temporary_system_message {ε : Type} (c : Conversation)
    (part : LLMMessagePart) (ops : List ConvOp) (e : ε) :
    (c.system_message = none →
        c.with_temporary_system_message part ops (none : Option ε)
            = (c, .noSystemMessage)
        ∧ c.with_temporary_system_message part ops (some e) = (c, .noSystemMessage))
    ∧ (∀ s, c.system_message = some s → noSetSystem ops = true →
        ((c.with_temporary_system_message part ops (none : Option ε)).1.system_message
            = some s
          ∧ (c.with_temporary_system_message part ops (none : Option ε)).2 = .ok
          ∧ (c.with_temporary_system_message part ops (some e)).1.system_message
              = some { s with parts := s.parts ++ [part] }
          ∧ (c.with_temporary_system_message part ops (some e)).2 = .raised e)) := by
  constructor
  · intro h
    constructor <;> simp [Conversation.with_temporary_system_message, h]
  · intro s hs hops
    have hsys := applyOps_system_of_noSetSystem ops
      { c with system_message := some { s with parts := s.parts ++ [part] } } hops
    refine ⟨?_, ?_, ?_, ?_⟩ <;>
      simp [Conversation.with_temporary_system_message, hs, hsys]

theorem claim6_temporary_system_message_witness :
    (Conversation.with_temporary_system_message (ε := Unit) emptyConv
        { content := "tmp" } [] none = (emptyConv, .noSystemMessage))
    ∧ (Conversation.with_temporary_system_message (ε := Unit) sysConv
        { content := "tmp" } [] none).1.system_message = some baseSystemMessage
    ∧ (Conversation.with_temporary_system_message (ε := Unit) sysConv
        { content := "tmp" } [] (some ())).1.system_message
        = some { baseSystemMessage with
                   parts := baseSystemMessage.parts ++ [{ content := "tmp" }] } := by
  refine ⟨?_, ?_, ?_⟩
  · exact ((claim6_temporary_system_message emptyConv { content := "tmp" } [] ()).1 rfl).1
  · exact ((claim6_temporary_system_message sysConv { content := "tmp" } [] ()).2
      baseSystemMessage rfl rfl).1
  · exact ((claim6_temporary_system_message sysConv { content := "tmp" } [] ()).2
      baseSystemMessage rfl rfl).2.2.1

theorem filter_bne_getElem_eq_eraseIdx :
    ∀ (l : List String), l.Nodup → ∀ (i : Nat) (hi : i < l.length),
      l.filter (fun o => o != l[i]) = l.eraseIdx i := by
  intro l
  induction l with
  | nil => intro _ i hi; simp at hi
  | cons a tl ih =>
    intro hnd i hi
    have hmem : a ∉ tl := (List.nodup_cons.mp hnd).1
    have htl : tl.Nodup := (List.nodup_cons.mp hnd).2
    cases i with
    | zero =>
      have h0 : (a :: tl)[0] = a := rfl
      rw [h0, List.eraseIdx_cons_zero, List.filter_cons_of_neg (by simp)]
      exact List.filter_eq_self.mpr (fun o ho => by
        simp only [bne_iff_ne, ne_eq]
        intro hoa
        exact hmem (hoa ▸ ho))
    | succ i =>
      have hi' : i < tl.length := Nat.lt_of_succ_lt_succ hi
      have hget : (a :: tl)[i + 1] = tl[i] := rfl
      rw [hget, List.eraseIdx_cons_succ, List.filter_cons_of_pos (by
        simp only [bne_iff_ne, ne_eq]
        intro h
        exact hmem (h ▸ (tl.getElem_mem hi')))]
      rw [ih htl i hi']

/-- C7: for a duplicate-free ordered model tuple, the fallback entry built
for the i-th model maps it to the tuple with exactly that member removed,
preserving the original relative order; in particular the table for
("A","B","C") is A ↦ [B,C], B ↦ [A,C], C ↦ [A,B]. -/
theorem claim7_fallback_table :
    (∀ (models : List String), models.Nodup → ∀ (i : Nat) (hi : i < models.length),
        (getRouterFallbacks models)[i]? = some (models[i], models.eraseIdx i))
    ∧ getRouterFallbacks ["A", "B", "C"]
        = [("A", ["B", "C"]), ("B", ["A", "C"]), ("C", ["A", "B"])] := by
  constructor
  · intro models hnd i hi
    simp only [getRouterFallbacks, List.getElem?_map, List.getElem?_eq_getElem hi,
      Option.map_some']
    rw [filter_bne_getElem_eq_eraseIdx models hnd i hi]
  · rfl

theorem claim7_fallback_table_witness :
    (getRouterFallbacks ["A", "B", "C"])[1]? = some ("B", ["A", "C"]) := by
  have h := claim7_fallback_table.1 ["A", "B", "C"] (by decide) 1 (by decide)
  simpa using h

/-- C2 counterexample: the blocking unstructured helper passes a
service-unavailable transport error through unchanged — the raw transport
error kind reaches the caller instead of the domain kind
`ModelUnavailable`. -/
theorem claim2_unstructured_no_remap :
    llm_unstructured_sync [] (fun _ => .error .serviceUnavailable)
      = .error (.transport .serviceUnavailable)
    ∧ llm_unstructured_sync [] (fun _ => .error .serviceUnavailable)
      ≠ .error .modelUnavailable
    ∧ llm_unstructured_sync [] (fun _ => .error .rateLimit)
      = .error (.transport .rateLimit)
    ∧ llm_unstructured_sync [] (fun _ => .error .rateLimit)
      ≠ .error .rateLimitExceeded := by
  refine ⟨rfl, ?_, rfl, ?_⟩ <;> intro h <;> exact absurd (Except.error.inj h) (by
    intro h2
    cases h2)

/-- C2 amended: when the transport raises, the structured helpers (blocking
and suspending) remap service-unavailable to `ModelUnavailable` and
rate-limit to `RateLimitExceeded` and pass every other transport error
through, while the unstructured helpers (blocking and suspending) perform no
remapping at all and propagate every transport error unchanged. -/
theorem claim2_transport_error_mapping {T : Type} (messages : List Message)
    (router_complete : List LiteLLMMessage → Except TransportError ModelResponse)
    (response_model : String → Option T) (e : TransportError)
    (h : router_complete (renderMessageList messages) = .error e) :
    llm_structured_sync messages router_complete response_model
        = .error (match e with
            | .serviceUnavailable => .modelUnavailable
            | .rateLimit => .rateLimitExceeded
            | .other msg => .transport (.other msg))
    ∧ llm_structured messages router_complete response_model
        = .error (match e with
            | .serviceUnavailable => .modelUnavailable
            | .rateLimit => .rateLimitExceeded
            | .other msg => .transport (.other msg))
    ∧ llm_unstructured_sync messages router_complete = .error (.transport e)
    ∧ llm_unstructured messages router_complete = .error (.transport e) := by
  refine ⟨?_, ?_, ?_, ?_⟩ <;>
    · simp only [llm_structured_sync, llm_structured, llm_unstructured_sync,
        llm_unstructured, h]
      try cases e <;> rfl

theorem claim2_transport_error_mapping_witness :
    llm_structured_sync (T := Unit) [] (fun _ => .error .serviceUnavailable)
        (fun _ => none)
      = .error .modelUnavailable
    ∧ llm_structured_sync (T := Unit) [] (fun _ => .error .rateLimit) (fun _ => none)
      = .error .rateLimitExceeded := by
  constructor
  · exact (claim2_transport_error_mapping [] (fun _ => .error .serviceUnavailable)
      (fun _ => none) .serviceUnavailable rfl).1
  · exact (claim2_transport_error_mapping [] (fun _ => .error .rateLimit)
      (fun _ => none) .rateLimit rfl).1

/-- C9: when the router returns a non-empty completion, the structured
helper always constructs its response successfully — no validation of the
text happens at construction — and accessing `structured_response` fails
with `ValidationFailure` exactly when the stored text does not validate
against the target schema. -/
theorem claim9_structured_validation_is_lazy {T : Type} (messages : List Message)
    (response_model : String → Option T) (choice : ModelResponseChoice)
    (rest : List ModelResponseChoice) (usage : ModelResponseUsage) :
    llm_structured_sync messages
        (fun _ => .ok { choices := choice :: rest, usage := usage }) response_model
      = .ok { text := choice.message.content, structure_ := response_model,
              usage := { input_tokens := usage.prompt_tokens,
                         output_tokens := usage.completion_tokens } }
    ∧ (StructuredLLMResponse.structured_response
          { text := choice.message.content, structure_ := response_model,
            usage := { input_tokens := usage.prompt_tokens,
                       output_tokens := usage.completion_tokens } }
        = .error .validationFailure
        ↔ response_model choice.message.content = none) := by
  refine ⟨rfl, ?_⟩
  cases h : response_model choice.message.content <;>
    simp [StructuredLLMResponse.structured_response, h]

/-- C1: evaluating the tool-call helpers on the spec's own test vector —
tool_choice auto, one returned call whose function name matches the single
supplied tool — both the blocking and the suspending helper return a
`StrictToolLLMResponse` (which carries no `text` field at all), not the
`ToolLLMResponse` with `text = null` promised by the spec and by the
helpers' own `auto` overload signatures. -/
theorem claim1_auto_with_calls_returns_strict :
    llm_tool_call_sync [] .gemini_2_0_flash [get_weather_tool] .auto
        (fun _ _ _ _ => tokyoToolCallResponse)
      = .ok (.strictToolResponse
          { tool_call := { tool_name := "get_weather",
                           arguments := [("location", .str "Tokyo")] },
            usage := { input_tokens := 10, output_tokens := 5 } })
    ∧ llm_tool_call [] .gemini_2_0_flash [get_weather_tool] .auto
        (fun _ _ _ _ => tokyoToolCallResponse)
      = .ok (.strictToolResponse
          { tool_call := { tool_name := "get_weather",
                           arguments := [("location", .str "Tokyo")] },
            usage := { input_tokens := 10, output_tokens := 5 } }) :=
  ⟨rfl, rfl⟩

/-- C4: the round trip fails on a conversation containing a tool message.
The failing conversation's tool message is constructible through the
message API (first conjunct), its dump encodes the `Json[str]` fields
`response` and `function_call.arguments` as their stored values, and `load`
of that very dump raises the `Invalid conversation dump` error (second
conjunct) because re-validating `response := "sunny"` as a JSON document
fails. -/
theorem claim4_dump_load_roundtrip_fails :
    LLMToolMessage.create "call1" "get_weather" "sunny"
        { name := "get_weather", arguments := "\x7b\"location\":\"Tokyo\"\x7d" } [] 2
      = .ok { tool_call_id := "call1", name := "get_weather", response := "sunny",
              function_call := { name := "get_weather",
                                 arguments := "\x7b\"location\":\"Tokyo\"\x7d" },
              parts := [], created_at := 2 }
    ∧ jsonFieldConv.tool_messages.head?
      = some { tool_call_id := "call1", name := "get_weather", response := "sunny",
               function_call := { name := "get_weather",
                                  arguments := "\x7b\"location\":\"Tokyo\"\x7d" },
               parts := [], created_at := 2 }
    ∧ Conversation.load (Conversation.dump jsonFieldConv) = .error .invalidDump :=
  ⟨rfl, rfl, rfl⟩

/-- C8 counterexample: the tool name consisting of one underscore respects
the claimed constraint — every character is in [A-Za-z0-9_] — yet
construction fails, because stripping underscores leaves the empty string
and Python's `"".isalnum()` is false. -/
theorem claim8_underscore_name_rejected :
    ("_".data.all (fun c => c.isAlphanum || c == '_')) = true
    ∧ LLMTool.create "_" "desc" (.obj []) = .error .validationFailure :=
  ⟨by decide, rfl⟩

/-- C8 amended: construction fails with a validation error exactly in these
cases — an Assistant message with a part whose content type is not TEXT, a
Tool message with a non-empty parts list, and a Tool whose name, after
removing every underscore, is empty or contains a non-alphanumeric
character (so names containing a character outside [A-Za-z0-9_] are
rejected, but so are the empty name and names made only of underscores);
construction succeeds in every other case. -/
theorem claim8_construction_validation (parts : List LLMMessagePart) (created_at : Nat)
    (tool_call_id name response : String) (fc : LLMToolMessageFunctionCall)
    (tparts : List LLMMessagePart) (tcreated : Nat)
    (tname tdesc : String) (schema : JsonValue) :
    (LLMAssistantMessage.create parts created_at = .error .validationFailure
      ↔ ∃ p ∈ parts, p.content_type ≠ .text)
    ∧ (LLMAssistantMessage.create parts created_at
        = .ok { parts := parts, created_at := created_at }
      ↔ ∀ p ∈ parts, p.content_type = .text)
    ∧ (LLMToolMessage.create tool_call_id name response fc tparts tcreated
        = .error .validationFailure ↔ tparts ≠ [])
    ∧ (LLMToolMessage.create tool_call_id name response fc tparts tcreated
        = .ok { tool_call_id := tool_call_id, name := name, response := response,
                function_call := fc, parts := tparts, created_at := tcreated }
      ↔ tparts = [])
    ∧ (LLMTool.create tname tdesc schema = .error .validationFailure
      ↔ ((removeUnderscores tname).data = []
          ∨ ∃ c ∈ (removeUnderscores tname).data, ¬ c.isAlphanum))
    ∧ (LLMTool.create tname tdesc schema
        = .ok { name := tname, description := tdesc, parameters := schema }
      ↔ ((removeUnderscores tname).data ≠ []
          ∧ ∀ c ∈ (removeUnderscores tname).data, c.isAlphanum)) := by
  refine ⟨?_, ?_, ?_, ?_, ?_, ?_⟩
  · cases h : parts.any (fun part => part.content_type != .text) <;>
      simp_all [LLMAssistantMessage.create]
  · cases h : parts.any (fun part => part.content_type != .text) <;>
      simp_all [LLMAssistantMessage.create]
  · cases h : tparts.isEmpty <;>
      simp_all [LLMToolMessage.create, List.isEmpty_iff]
  · cases h : tparts.isEmpty <;>
      simp_all [LLMToolMessage.create, List.isEmpty_iff]
  · cases h : pyIsAlnum (removeUnderscores tname) <;>
      · simp_all [LLMTool.create, pyIsAlnum, List.isEmpty_iff]
        try tauto
  · cases h : pyIsAlnum (removeUnderscores tname) <;>
      · simp_all [LLMTool.create, pyIsAlnum, List.isEmpty_iff]
        try tauto

theorem claim3_render_system_first_then_sorted_witness :
    sysConv.render = [Message.system baseSystemMessage] := by
  have h := (claim3_render_system_first_then_sorted sysConv).1
  simpa [sysConv, Conversation.nonSystemMessages] using h

theorem claim5_session_rollback_witness :
    (Conversation.session (ε := Unit) emptyConv
        [ConvOp.addUser { parts := [], created_at := 3 }] (some ())).1.user_messages
      = [] := by
  have h := (claim5_session_rollback emptyConv
      [ConvOp.addUser { parts := [], created_at := 3 }] ()).1.1
  simpa [emptyConv] using h

theorem claim8_construction_validation_witness :
    LLMTool.create "get_weather" "d" (.obj [])
      = .ok { name := "get_weather", description := "d", parameters := .obj [] } := by
  have h := (claim8_construction_validation [] 0 "" "" ""
      { name := "", arguments := "" } [] 0 "get_weather" "d" (.obj [])).2.2.2.2.2
  exact h.mpr (by decide)

theorem claim9_structured_validation_is_lazy_witness :
    StructuredLLMResponse.structured_response
        { text := "not json", structure_ := (fun _ => (none : Option Unit)),
          usage := { input_tokens := 1, output_tokens := 2 } }
      = .error .validationFailure := by
  have h := (claim9_structured_validation_is_lazy (T := Unit) []
      (fun _ => (none : Option Unit))
      { message := { content := "not json", tool_calls := none } } []
      { completion_tokens := 2, prompt_tokens := 1, total_tokens := 3 }).2
  exact h.mpr rfl

theorem claim10_tie_break_determinism_witness :
    ((jsonFieldConv.nonSystemMessages).mergeSort msgLE).filter
        (fun m => m.created_at == 1)
      = [Message.user { parts := [{ content := "hello" }], created_at := 1 }] := by
  rw [claim10_tie_break_determinism jsonFieldConv 1]
  rfl
